import Mathlib

/-!
A shallow embedding of the AgentBounty attacker-personas repository, covering
the MITRE STIX knowledge store (`mitre_stix_client.py`), the behavioral
profile model (`persona.py`), the persona library cache
(`persona_library.py`), the heuristic persona generator
(`persona_generator.py`), and the campaign execution engine
(`red_team_agent_v2.py`).

Modelling conventions:
* Python dicts of STIX objects become `StixObject` records; a key that may be
  missing or `None` becomes an `Option` field (this conflates a key bound to
  `None` with an absent key, which the queried MITRE fields never distinguish
  observably in the modelled code paths).
* Floats become rationals (`ℚ`), `int()` truncation becomes `pyInt`.
* Calls to `random.random()` / `random.randint` / `random.choice` draw from an
  explicit stream `Gen` of rational and natural draws, threaded through every
  function in the order the Python code performs the draws.
* Raised exceptions become `Except.error`.
-/

namespace AgentBounty

/-- Does `pat` start `hay`? (character-list helper for the substring test). -/
def listStartsWith : List Char → List Char → Bool
  | [], _ => true
  | _ :: _, [] => false
  | a :: as, b :: bs => a == b && listStartsWith as bs

/-- Does `pat` occur anywhere in `hay`? -/
def listOccurs (pat : List Char) : List Char → Bool
  | [] => listStartsWith pat []
  | c :: rest => listStartsWith pat (c :: rest) || listOccurs pat rest

/-- Python's substring test `pat in hay` (the empty pattern is in every string). -/
def strContains (hay pat : String) : Bool :=
  listOccurs pat.data hay.data

/-- Python's `str.lower()` (ASCII case folding, which covers every string the
modelled code lowercases). -/
def pyToLower (s : String) : String :=
  String.mk (s.data.map Char.toLower)

/-- Python's `' '.join(parts)`. -/
def pyJoinSpace : List String → String
  | [] => ""
  | [x] => x
  | x :: rest => x ++ " " ++ pyJoinSpace rest

/-- Python's `int()` applied to a float: truncation toward zero. -/
def pyInt (x : ℚ) : Int :=
  if 0 ≤ x then Int.floor x else Int.ceil x

/-- One entry of a STIX `kill_chain_phases` list. -/
structure KillChainPhase where
  kill_chain_name : String
  phase_name : String
  deriving DecidableEq, Repr

/-- One entry of a STIX `external_references` list; `external_id` may be absent. -/
structure ExternalReference where
  source_name : String
  external_id : Option String := none
  deriving DecidableEq, Repr

/-- A STIX object as the repository consumes it: a dict whose relevant keys are
modelled as fields, with `Option` for keys that relationships/techniques may
lack. `external_id` is the key that `get_techniques_for_group` and
`get_technique_by_id` write into their copied result dicts. -/
structure StixObject where
  type : String
  id : String := ""
  name : String := ""
  description : String := ""
  aliases : List String := []
  source_ref : Option String := none
  target_ref : Option String := none
  relationship_type : Option String := none
  external_references : List ExternalReference := []
  kill_chain_phases : List KillChainPhase := []
  external_id : Option String := none
  deriving DecidableEq, Repr

/-- The MITRE STIX client after `_parse_stix_data`: it owns the ingested
bundle's object list; the by-type and by-id indexes are derived views. -/
structure MITREStixClient where
  objects : List StixObject
  deriving DecidableEq, Repr

/-- The `_relationships` index: bundle objects of type `relationship`, in
bundle order. -/
def MITREStixClient.relationships (c : MITREStixClient) : List StixObject :=
  c.objects.filter (fun o => o.type == "relationship")

/-- The `_objects_by_id` dict lookup: objects with a truthy `id` are inserted
in bundle order, later insertions overwriting earlier ones, so a lookup
returns the last object carrying that (nonempty) id. -/
def MITREStixClient.objectsById (c : MITREStixClient) (ref : String) : Option StixObject :=
  (c.objects.filter (fun o => !(o.id == "") && o.id == ref)).getLast?

/-- `self._objects_by_id.get(target_ref)`: a missing `target_ref` key gives
`None`, and `dict.get(None)` is `None`, never an error. -/
def MITREStixClient.resolveRef (c : MITREStixClient) (ref : Option String) : Option StixObject :=
  match ref with
  | none => none
  | some r => c.objectsById r

/-- The copy-and-annotate step of the group queries: copy the object and set
its `external_id` from the first `mitre-attack` external reference, if any. -/
def addMitreExternalId (o : StixObject) : StixObject :=
  match o.external_references.find? (fun r => r.source_name == "mitre-attack") with
  | some r => { o with external_id := r.external_id }
  | none => o

/-- `MITREStixClient.get_techniques_for_group`: walk `_relationships` in
order; keep `uses` edges out of `group_id` whose target resolves to an
`attack-pattern`; annotate each kept target with its MITRE external id. -/
def MITREStixClient.get_techniques_for_group (c : MITREStixClient) (group_id : String) :
    List StixObject :=
  c.relationships.filterMap (fun rel =>
    if rel.source_ref == some group_id && rel.relationship_type == some "uses" then
      match c.resolveRef rel.target_ref with
      | some target =>
        if target.type == "attack-pattern" then some (addMitreExternalId target) else none
      | none => none
    else none)

/-- `MITREStixClient.get_software_for_group`: same walk, keeping `malware` and
`tool` targets. -/
def MITREStixClient.get_software_for_group (c : MITREStixClient) (group_id : String) :
    List StixObject :=
  c.relationships.filterMap (fun rel =>
    if rel.source_ref == some group_id && rel.relationship_type == some "uses" then
      match c.resolveRef rel.target_ref with
      | some target =>
        if target.type == "malware" || target.type == "tool" then
          some (addMitreExternalId target)
        else none
      | none => none
    else none)

/-- `MITREStixClient.get_technique_by_id`: linear scan over the
`attack-pattern` bucket for the first object holding a `mitre-attack`
reference with the requested external id. -/
def MITREStixClient.get_technique_by_id (c : MITREStixClient) (technique_id : String) :
    Option StixObject :=
  ((c.objects.filter (fun o => o.type == "attack-pattern")).find? (fun p =>
      p.external_references.any (fun r =>
        r.source_name == "mitre-attack" && r.external_id == some technique_id))).map
    (fun p => { p with external_id := some technique_id })

/-- `MITREStixClient.get_group_by_name`: first `intrusion-set` whose primary
name or one of whose aliases matches case-insensitively. -/
def MITREStixClient.get_group_by_name (c : MITREStixClient) (name : String) :
    Option StixObject :=
  (c.objects.filter (fun o => o.type == "intrusion-set")).find? (fun g =>
    pyToLower g.name == pyToLower name
      || g.aliases.any (fun a => pyToLower a == pyToLower name))

/-- `SophisticationLevel` enumeration. -/
inductive SophisticationLevel
  | low
  | medium
  | high
  | advanced
  deriving DecidableEq, Repr

/-- `StealthLevel` enumeration. -/
inductive StealthLevel
  | noisy
  | balanced
  | stealthy
  deriving DecidableEq, Repr

/-- `AttackSpeed` enumeration. -/
inductive AttackSpeed
  | slow
  | moderate
  | fast
  | aggressive
  deriving DecidableEq, Repr

/-- The `AttackerPersona` dataclass (the derived `preferred_*` display lists,
which no modelled operation reads, are omitted). -/
structure AttackerPersona where
  stix_id : String
  mitre_id : String
  name : String
  aliases : List String := []
  description : String := ""
  tactics : List String := []
  techniques : List StixObject := []
  software : List StixObject := []
  sophistication_level : SophisticationLevel := .medium
  stealth_preference : StealthLevel := .balanced
  attack_speed : AttackSpeed := .moderate
  target_industries : List String := []
  target_regions : List String := []
  motivations : List String := []
  max_techniques_per_phase : Nat := 3
  technique_success_rate : ℚ := 7/10
  detection_sensitivity : ℚ := 1/2
  persistence_priority : ℚ := 4/5
  data_exfiltration_priority : ℚ := 3/5
  deriving DecidableEq, Repr

/-- An explicit stream of pseudo-random draws: `q` feeds `random.random()` and
`random.uniform`, `n` feeds `random.randint` and `random.choice`; the cursors
`qi`/`ni` advance one position per draw. -/
structure Gen where
  q : Nat → ℚ
  n : Nat → Nat
  qi : Nat := 0
  ni : Nat := 0

/-- Draw one `random.random()` value. -/
def Gen.nextQ (g : Gen) : ℚ × Gen :=
  (g.q g.qi, { g with qi := g.qi + 1 })

/-- Draw one natural number. -/
def Gen.nextN (g : Gen) : Nat × Gen :=
  (g.n g.ni, { g with ni := g.ni + 1 })

/-- `random.randint(lo, hi)` (both endpoints included), driven by one `n` draw. -/
def Gen.randint (g : Gen) (lo hi : Nat) : Nat × Gen :=
  let r := g.nextN
  (lo + r.1 % (hi - lo + 1), r.2)

/-- The index picked by `random.choice` on a list of length `len`, driven by
one `n` draw. -/
def Gen.choiceIdx (g : Gen) (len : Nat) : Nat × Gen :=
  let r := g.nextN
  (r.1 % len, r.2)

/-- The inner-loop test of `select_technique_for_tactic`: does the technique
carry a `mitre-attack` kill-chain phase naming this tactic? -/
def techniqueMatchesTactic (t : StixObject) (tactic : String) : Bool :=
  t.kill_chain_phases.any (fun ph =>
    ph.kill_chain_name == "mitre-attack" && ph.phase_name == tactic)

/-- The exclusion test `tech.get('external_id') not in exclude`: a technique
with no external id is never excluded (callers only exclude string ids). -/
def notExcludedById (t : StixObject) (exclude : List String) : Bool :=
  match t.external_id with
  | some i => !(exclude.contains i)
  | none => true

/-- The `matching` list that `select_technique_for_tactic` accumulates, in the
stored order of the persona's technique list. -/
def AttackerPersona.matchingTechniques (p : AttackerPersona) (tactic : String)
    (exclude : List String) : List StixObject :=
  p.techniques.filter (fun t => techniqueMatchesTactic t tactic && notExcludedById t exclude)

/-- `AttackerPersona.select_technique_for_tactic` with the `random.choice`
draw exposed as `r`: empty `matching` gives `None`; an advanced persona picks
`matching[r % len]` (any element is reachable); anyone else picks
`matching[0]`. -/
def AttackerPersona.select_technique_for_tactic (p : AttackerPersona) (tactic : String)
    (exclude : List String) (r : Nat) : Option StixObject :=
  let matching := p.matchingTechniques tactic exclude
  if matching.length = 0 then none
  else if p.sophistication_level = .advanced then
    matching.get? (r % matching.length)
  else
    matching.get? 0

/-- `select_technique_for_tactic` threading the draw stream: the
`random.choice` draw happens only on the advanced path with a nonempty
`matching` list, exactly as in the source. -/
def AttackerPersona.selectTechniqueG (p : AttackerPersona) (tactic : String)
    (exclude : List String) (g : Gen) : Option StixObject × Gen :=
  if (p.matchingTechniques tactic exclude).length = 0 then (none, g)
  else if p.sophistication_level = .advanced then
    let r := g.nextN
    (p.select_technique_for_tactic tactic exclude r.1, r.2)
  else
    (p.select_technique_for_tactic tactic exclude 0, g)

/-- One entry of the list `get_attack_chain` returns. -/
structure ChainEntry where
  tactic : String
  technique_id : String
  technique_name : String
  description : String
  deriving DecidableEq, Repr

/-- The `full_chain` scenario's fixed tactic order. -/
def fullChainOrder : List String :=
  ["reconnaissance", "initial-access", "execution", "persistence",
   "privilege-escalation", "defense-evasion", "credential-access", "discovery",
   "lateral-movement", "collection", "command-and-control", "exfiltration",
   "impact"]

/-- The `ransomware` scenario's fixed tactic order. -/
def ransomwareOrder : List String :=
  ["initial-access", "execution", "privilege-escalation", "defense-evasion",
   "discovery", "lateral-movement", "impact"]

/-- The `data_theft` scenario's fixed tactic order. -/
def dataTheftOrder : List String :=
  ["initial-access", "execution", "persistence", "credential-access",
   "discovery", "collection", "exfiltration"]

/-- Scenario resolution in `get_attack_chain`: the three built-in scenarios,
with unknown names falling back to the persona's own tactic list. -/
def AttackerPersona.tacticOrderFor (p : AttackerPersona) (scenario : String) : List String :=
  if scenario == "full_chain" then fullChainOrder
  else if scenario == "ransomware" then ransomwareOrder
  else if scenario == "data_theft" then dataTheftOrder
  else p.tactics

/-- The chain-building loop of `get_attack_chain`: skip tactics the persona
lacks, select a technique for the rest (no exclusions), and append an entry
per successful selection. -/
def AttackerPersona.buildChain (p : AttackerPersona) :
    List String → Gen → List ChainEntry × Gen
  | [], g => ([], g)
  | tactic :: rest, g =>
    if tactic ∈ p.tactics then
      let sel := p.selectTechniqueG tactic [] g
      match sel.1 with
      | some t =>
        let entry : ChainEntry :=
          { tactic := tactic
            technique_id := t.external_id.getD ""
            technique_name := t.name
            description := t.description.take 200 ++ "..." }
        let restChain := p.buildChain rest sel.2
        (entry :: restChain.1, restChain.2)
      | none => p.buildChain rest sel.2
    else p.buildChain rest g

/-- `AttackerPersona.get_attack_chain`. -/
def AttackerPersona.get_attack_chain (p : AttackerPersona) (scenario : String) (g : Gen) :
    List ChainEntry × Gen :=
  p.buildChain (p.tacticOrderFor scenario) g

/-- `AttackerPersona.should_use_stealth_technique`: one Bernoulli draw against
the stealth-preference threshold. -/
def AttackerPersona.should_use_stealth_technique (p : AttackerPersona) (g : Gen) :
    Bool × Gen :=
  let r := g.nextQ
  match p.stealth_preference with
  | .stealthy => (decide (r.1 < 9/10), r.2)
  | .balanced => (decide (r.1 < 1/2), r.2)
  | .noisy => (decide (r.1 < 1/10), r.2)

/-- One planned phase of an attack plan (`_generate_persona_attack_plan`). -/
structure PlanPhase where
  tactic : String
  technique_id : String
  technique_name : String
  description : String
  expected_delay_minutes : Int := 0
  stealth_mode : Bool := false
  priority : Int := 5
  deriving DecidableEq, Repr

/-- `AttackStatus` enumeration. -/
inductive AttackStatus
  | planned
  | in_progress
  | success
  | failed
  | blocked
  | abandoned
  deriving DecidableEq, Repr

/-- `RedTeamAgentWithPersona._calculate_phase_delay`: the `base_delays` dict
literal draws all four `randint` values on every call; the persona's speed
picks one; a stealthy persona then scales it by `uniform(1.5, 2.5)` and the
result is truncated to an integer. -/
def calculatePhaseDelay (p : AttackerPersona) (g : Gen) : Int × Gen :=
  let r1 := g.randint 60 240
  let r2 := r1.2.randint 15 60
  let r3 := r2.2.randint 1 15
  let r4 := r3.2.randint 0 2
  let base : Nat :=
    match p.attack_speed with
    | .slow => r1.1
    | .moderate => r2.1
    | .fast => r3.1
    | .aggressive => r4.1
  if p.stealth_preference = .stealthy then
    let u := r4.2.nextQ
    (pyInt ((base : ℚ) * (3/2 + u.1)), u.2)
  else
    ((base : Int), r4.2)

/-- `RedTeamAgentWithPersona._get_tactic_priority`. -/
def getTacticPriority (p : AttackerPersona) (tactic : String) : Int :=
  if tactic == "initial-access" then 10
  else if tactic == "execution" then 9
  else if tactic == "persistence" then (if p.persistence_priority > 7/10 then 8 else 5)
  else if tactic == "privilege-escalation" then 7
  else if tactic == "defense-evasion" then (if p.stealth_preference = .stealthy then 8 else 4)
  else if tactic == "credential-access" then 6
  else if tactic == "discovery" then 5
  else if tactic == "lateral-movement" then 6
  else if tactic == "collection" then (if p.data_exfiltration_priority > 7/10 then 7 else 3)
  else if tactic == "command-and-control" then 6
  else if tactic == "exfiltration" then (if p.data_exfiltration_priority > 7/10 then 8 else 3)
  else if tactic == "impact" then 4
  else 5

/-- The per-entry annotation loop of `_generate_persona_attack_plan`: each
chain entry draws its delay, then its stealth-mode flag, in that order. -/
def planPhases (p : AttackerPersona) : List ChainEntry → Gen → List PlanPhase × Gen
  | [], g => ([], g)
  | e :: rest, g =>
    let d := calculatePhaseDelay p g
    let sm := p.should_use_stealth_technique d.2
    let ph : PlanPhase :=
      { tactic := e.tactic
        technique_id := e.technique_id
        technique_name := e.technique_name
        description := e.description
        expected_delay_minutes := d.1
        stealth_mode := sm.1
        priority := getTacticPriority p e.tactic }
    let rest' := planPhases p rest sm.2
    (ph :: rest'.1, rest'.2)

/-- `RedTeamAgentWithPersona._generate_persona_attack_plan`. -/
def generatePersonaAttackPlan (p : AttackerPersona) (scenario : String) (g : Gen) :
    List PlanPhase × Gen :=
  let chain := p.get_attack_chain scenario g
  planPhases p chain.1 chain.2

/-- The sophistication multipliers of `_calculate_success_probability`. -/
def sophisticationModifier : SophisticationLevel → ℚ
  | .low => 4/5
  | .medium => 9/10
  | .high => 1
  | .advanced => 11/10

/-- The `difficult_tactics` list of `_calculate_success_probability`. -/
def difficultTactics : List String :=
  ["privilege-escalation", "defense-evasion", "persistence"]

/-- `RedTeamAgentWithPersona._calculate_success_probability`. -/
def calculateSuccessProbability (p : AttackerPersona) (phase : PlanPhase) : ℚ :=
  let base := p.technique_success_rate * sophisticationModifier p.sophistication_level
  let base := if phase.tactic ∈ difficultTactics then base * (85/100) else base
  min base (95/100)

/-- The `high_visibility` list of `_calculate_detection_probability`. -/
def highVisibilityTactics : List String :=
  ["impact", "exfiltration", "lateral-movement"]

/-- `RedTeamAgentWithPersona._calculate_detection_probability`. -/
def calculateDetectionProbability (p : AttackerPersona) (phase : PlanPhase) : ℚ :=
  let b0 : ℚ := 3/10
  let b1 :=
    match p.stealth_preference with
    | .stealthy => b0 * (1/2)
    | .noisy => b0 * (3/2)
    | .balanced => b0
  let b2 := if phase.tactic ∈ highVisibilityTactics then b1 * (13/10) else b1
  let b3 := if phase.stealth_mode then b2 * (6/10) else b2
  min b3 (9/10)

/-- One synthetic artifact record. -/
structure Artifact where
  type : String
  description : String
  ioc : String
  deriving DecidableEq, Repr

/-- `RedTeamAgentWithPersona._generate_attack_artifacts`: fixed per-tactic
artifacts, with the ioc strings drawing fresh random values. -/
def generateAttackArtifacts (phase : PlanPhase) (g : Gen) : List Artifact × Gen :=
  if phase.tactic == "initial-access" then
    let a := g.randint 1 255
    let b := a.2.randint 1 255
    let c := b.2.randint 1 255
    ([{ type := "network", description := "Suspicious external connection",
        ioc := "185." ++ toString a.1 ++ "." ++ toString b.1 ++ "." ++ toString c.1 }], c.2)
  else if phase.tactic == "execution" then
    let i := g.choiceIdx 3
    ([{ type := "process", description := "Suspicious process execution",
        ioc := (["powershell.exe", "cmd.exe", "wscript.exe"].getD i.1 "") }], i.2)
  else if phase.tactic == "persistence" then
    ([{ type := "registry", description := "Registry key modification",
        ioc := "HKLM\\Software\\Microsoft\\Windows\\CurrentVersion\\Run" }], g)
  else if phase.tactic == "exfiltration" then
    let m := g.randint 10 500
    ([{ type := "network", description := "Large data transfer",
        ioc := toString m.1 ++ " MB uploaded" }], m.2)
  else ([], g)

/-- `RedTeamAgentWithPersona._generate_indicators`: fixed indicator strings
keyed by substring tests on the technique id. -/
def generateIndicators (phase : PlanPhase) : List String :=
  if strContains phase.technique_id "T1566" then
    ["Suspicious email with attachment", "User clicked on external link"]
  else if strContains phase.technique_id "T1055" then
    ["Process memory modification detected", "Unusual process behavior"]
  else if strContains phase.technique_id "T1003" then
    ["lsass.exe access detected", "Suspicious credential access"]
  else if strContains phase.technique_id "T1041" then
    ["Unusual outbound traffic volume", "Connection to known C2 infrastructure"]
  else []

/-- Python's `list(set(ss))` on strings, modelled as first-occurrence
deduplication (a deterministic stand-in for the set's arbitrary order; no
modelled claim observes this order). -/
def pyDedup (ss : List String) : List String :=
  ss.foldl (fun acc x => if x ∈ acc then acc else acc ++ [x]) []

/-- The per-tactic mitigation strings of `_get_mitigation_suggestions`. -/
def mitigationsForTactic (tactic : String) : List String :=
  if tactic == "initial-access" then
    ["Implement email filtering and sandboxing", "User security awareness training",
     "Network segmentation"]
  else if tactic == "execution" then
    ["Application whitelisting", "Disable unnecessary scripting engines",
     "Monitor process creation"]
  else if tactic == "persistence" then
    ["Regular system audits", "Monitor autostart locations", "Implement least privilege"]
  else if tactic == "exfiltration" then
    ["Data loss prevention (DLP)", "Network traffic monitoring", "Encrypt sensitive data"]
  else []

/-- `RedTeamAgentWithPersona._get_mitigation_suggestions`. -/
def getMitigationSuggestions (c : MITREStixClient) (technique_id : String) : List String :=
  match c.get_technique_by_id technique_id with
  | none => ["Implement defense-in-depth strategy"]
  | some t =>
    (pyDedup ((t.kill_chain_phases.map (fun ph => mitigationsForTactic ph.phase_name)).flatten)).take 3

/-- One detection event appended by `_execute_phase`. -/
structure DetectionEvent where
  phase : String
  technique : String
  severity : String
  deriving DecidableEq, Repr

/-- One executed phase's result dict. -/
structure PhaseResult where
  tactic : String
  technique_id : String
  technique_name : String
  target : String
  status : AttackStatus
  detected : Bool
  artifacts : List Artifact
  indicators : List String
  mitigation_suggestions : List String
  deriving DecidableEq, Repr

/-- One entry of the campaign's `phases` list: either a still-planned phase
(appended when `auto_execute` is false) or an executed result. -/
inductive PhaseEntry
  | planned (phase : PlanPhase)
  | executed (result : PhaseResult)
  deriving DecidableEq, Repr

/-- The `objectives_achieved` record of `_calculate_campaign_metrics`. -/
structure ObjectivesAchieved where
  initial_access : Bool := false
  persistence : Bool := false
  data_theft : Bool := false
  lateral_movement : Bool := false
  deriving DecidableEq, Repr

/-- The campaign dict of `execute_attack_campaign` (timestamps and the id's
timestamp suffix are outside the model). -/
structure Campaign where
  id : String
  persona : AttackerPersona
  target : String
  scenario : String
  max_duration_hours : Int
  status : String
  phases : List PhaseEntry := []
  techniques_used : List String := []
  objectives_completed : List String := []
  detection_events : List DetectionEvent := []
  data_exfiltrated : Nat := 0
  attack_plan : List PlanPhase := []
  success_rate : ℚ := 0
  detection_rate : ℚ := 0
  objectives_achieved : ObjectivesAchieved := {}
  risk_score : Int := 0
  deriving DecidableEq, Repr

/-- `RedTeamAgentWithPersona._execute_phase`: draw success and detection,
build the result dict (artifacts drawing their own values), on detection
append an event and draw the 30% block override, and on a final Success
status record the technique and any completed objective (exfiltration adding
a random 1-100 MB volume). Returns the result plus the updated campaign and
stream. -/
def executePhase (client : MITREStixClient) (p : AttackerPersona) (phase : PlanPhase)
    (target : String) (c : Campaign) (g : Gen) : PhaseResult × Campaign × Gen :=
  let sp := calculateSuccessProbability p phase
  let dp := calculateDetectionProbability p phase
  let u1 := g.nextQ
  let success := decide (u1.1 < sp)
  let u2 := u1.2.nextQ
  let detected := decide (u2.1 < dp)
  let arts := generateAttackArtifacts phase u2.2
  let result0 : PhaseResult :=
    { tactic := phase.tactic
      technique_id := phase.technique_id
      technique_name := phase.technique_name
      target := target
      status := if success then .success else .failed
      detected := detected
      artifacts := arts.1
      indicators := generateIndicators phase
      mitigation_suggestions := getMitigationSuggestions client phase.technique_id }
  let step1 : PhaseResult × Campaign × Gen :=
    if detected then
      let ev : DetectionEvent :=
        { phase := phase.tactic
          technique := phase.technique_id
          severity := if phase.tactic ∈ (["impact", "exfiltration"] : List String)
                      then "high" else "medium" }
      let c1 := { c with detection_events := c.detection_events ++ [ev] }
      let u3 := arts.2.nextQ
      if u3.1 < 3/10 then ({ result0 with status := .blocked }, c1, u3.2)
      else (result0, c1, u3.2)
    else (result0, c, arts.2)
  let result1 := step1.1
  let c1 := step1.2.1
  let g1 := step1.2.2
  if result1.status = .success then
    let c2 := { c1 with techniques_used := c1.techniques_used ++ [phase.technique_id] }
    if phase.tactic == "initial-access" then
      (result1, { c2 with objectives_completed := c2.objectives_completed ++ ["initial_access"] }, g1)
    else if phase.tactic == "persistence" then
      (result1, { c2 with objectives_completed := c2.objectives_completed ++ ["persistence_established"] }, g1)
    else if phase.tactic == "exfiltration" then
      let m := g1.randint 1 100
      (result1,
       { c2 with objectives_completed := c2.objectives_completed ++ ["data_exfiltrated"],
                 data_exfiltrated := c2.data_exfiltrated + m.1 }, m.2)
    else (result1, c2, g1)
  else (result1, c1, g1)

/-- `RedTeamAgentWithPersona._get_alternative_technique`: reselect for the
same tactic excluding the failed technique; a found alternative is forced
into stealth mode, draws a fresh delay, and keeps the original priority. -/
def getAlternativeTechnique (p : AttackerPersona) (orig : PlanPhase) (g : Gen) :
    Option PlanPhase × Gen :=
  let sel := p.selectTechniqueG orig.tactic [orig.technique_id] g
  match sel.1 with
  | some alt =>
    let d := calculatePhaseDelay p sel.2
    (some { tactic := orig.tactic
            technique_id := alt.external_id.getD ""
            technique_name := alt.name
            description := alt.description.take 200
            expected_delay_minutes := d.1
            stealth_mode := true
            priority := orig.priority }, d.2)
  | none => (none, sel.2)

/-- The phase loop of `execute_attack_campaign`: with `auto_execute` each
planned phase is executed and appended; a Blocked/Failed outcome may trigger
one stealthy alternative phase, executed and appended in turn; without
`auto_execute` each phase is appended as a Planned entry untouched. -/
def runPhases (client : MITREStixClient) (p : AttackerPersona) (target : String)
    (auto_execute : Bool) : List PlanPhase → Campaign → Gen → Campaign × Gen
  | [], c, g => (c, g)
  | phase :: rest, c, g =>
    if auto_execute then
      let step := executePhase client p phase target c g
      let res := step.1
      let c1 := { step.2.1 with phases := step.2.1.phases ++ [PhaseEntry.executed res] }
      let g1 := step.2.2
      if res.status = .blocked ∨ res.status = .failed then
        let st := p.should_use_stealth_technique g1
        if st.1 then
          let alt := getAlternativeTechnique p phase st.2
          match alt.1 with
          | some altPhase =>
            let step2 := executePhase client p altPhase target c1 alt.2
            let c2 := { step2.2.1 with
                        phases := step2.2.1.phases ++ [PhaseEntry.executed step2.1] }
            runPhases client p target auto_execute rest c2 step2.2.2
          | none => runPhases client p target auto_execute rest c1 alt.2
        else runPhases client p target auto_execute rest c1 st.2
      else runPhases client p target auto_execute rest c1 g1
    else
      runPhases client p target auto_execute rest
        { c with phases := c.phases ++ [PhaseEntry.planned phase] } g

/-- The success test over a `phases` entry used by the metric counters: a
Planned entry's `status` is `AttackStatus.PLANNED`, never Success. -/
def isSuccessEntry : PhaseEntry → Bool
  | .executed r => r.status == AttackStatus.success
  | .planned _ => false

/-- The detection test over a `phases` entry: a Planned entry has no
`detected` key, so `p.get('detected', False)` is false. -/
def isDetectedEntry : PhaseEntry → Bool
  | .executed r => r.detected
  | .planned _ => false

/-- The lateral-movement objective test: a successful executed phase whose
tactic contains the substring `lateral-movement`. -/
def isSuccessLateralEntry : PhaseEntry → Bool
  | .executed r => (r.status == AttackStatus.success) && strContains r.tactic "lateral-movement"
  | .planned _ => false

/-- The risk-score computation at the end of `_calculate_campaign_metrics`:
fixed points per achieved objective, discounted by the detection rate,
truncated by `int()` and clamped by `min(_, 100)`. -/
def calcRiskScore (initial_access persistence data_theft lateral_movement : Bool)
    (detection_rate : ℚ) : Int :=
  let points : Int :=
    (if initial_access then 20 else 0) + (if persistence then 25 else 0) +
    (if data_theft then 30 else 0) + (if lateral_movement then 25 else 0)
  min (pyInt ((points : ℚ) * (1 - detection_rate * (3/10)))) 100

/-- `RedTeamAgentWithPersona._calculate_campaign_metrics`. -/
def calculateCampaignMetrics (c : Campaign) : Campaign :=
  let total := c.phases.length
  let succ := (c.phases.filter isSuccessEntry).length
  let success_rate : ℚ := if 0 < total then (succ : ℚ) / (total : ℚ) else 0
  let det := (c.phases.filter isDetectedEntry).length
  let detection_rate : ℚ := if 0 < total then (det : ℚ) / (total : ℚ) else 0
  let obj : ObjectivesAchieved :=
    { initial_access := c.objectives_completed.contains "initial_access"
      persistence := c.objectives_completed.contains "persistence_established"
      data_theft := c.objectives_completed.contains "data_exfiltrated"
      lateral_movement := c.phases.any isSuccessLateralEntry }
  { c with success_rate := success_rate
           detection_rate := detection_rate
           objectives_achieved := obj
           risk_score := calcRiskScore obj.initial_access obj.persistence obj.data_theft
             obj.lateral_movement detection_rate }

/-- `RedTeamAgentWithPersona.execute_attack_campaign`: raises (only) when no
persona is set; otherwise builds the plan, runs every phase, marks the
campaign completed and computes its metrics. -/
def execute_attack_campaign (client : MITREStixClient) (persona : Option AttackerPersona)
    (target scenario : String) (max_duration_hours : Int) (auto_execute : Bool) (g : Gen) :
    Except String Campaign :=
  match persona with
  | none => .error "No persona set. Use set_persona() first."
  | some p =>
    let c0 : Campaign :=
      { id := "campaign", persona := p, target := target, scenario := scenario,
        max_duration_hours := max_duration_hours, status := "active" }
    let plan := generatePersonaAttackPlan p scenario g
    let c1 := { c0 with attack_plan := plan.1 }
    let run := runPhases client p target auto_execute plan.1 c1 plan.2
    let c2 := { run.1 with status := "completed" }
    .ok (calculateCampaignMetrics c2)

/-- The fixed industry keyword table of
`PersonaGenerator._load_industry_keywords`, in its source order (the `IT`
keyword is kept uppercase as in the source, where it can never match the
lowercased text). -/
def industryKeywords : List (String × List String) :=
  [("Government", ["government", "military", "defense", "embassy", "diplomatic",
                   "ministry", "agency"]),
   ("Financial", ["bank", "financial", "finance", "payment", "credit", "monetary",
                  "treasury"]),
   ("Technology", ["technology", "software", "tech", "IT", "computer",
                   "semiconductor", "cloud"]),
   ("Healthcare", ["healthcare", "hospital", "medical", "pharmaceutical", "health",
                   "patient"]),
   ("Energy", ["energy", "oil", "gas", "electric", "power", "utility", "petroleum",
               "nuclear"]),
   ("Telecommunications", ["telecom", "telecommunication", "mobile", "cellular",
                           "phone", "network"]),
   ("Manufacturing", ["manufacturing", "industrial", "factory", "production",
                      "automotive"]),
   ("Education", ["education", "university", "school", "academic", "research",
                  "student"]),
   ("Media", ["media", "journalism", "news", "broadcast", "television", "radio",
              "press"]),
   ("Retail", ["retail", "shopping", "store", "commerce", "sales", "consumer"]),
   ("Aviation", ["aviation", "airline", "aircraft", "aerospace", "flight"]),
   ("Maritime", ["maritime", "shipping", "port", "naval", "ocean"]),
   ("Critical Infrastructure", ["infrastructure", "critical", "transportation",
                                "water", "dam"])]

/-- The lowercased combined text `f-string of description and joined aliases`
that `_infer_target_industries` scans. -/
def industryCombinedText (description : String) (aliases : List String) : String :=
  pyToLower (description ++ " " ++ pyJoinSpace aliases)

/-- True when some keyword of some industry row occurs in the combined text. -/
def anyIndustryMatch (description : String) (aliases : List String) : Bool :=
  industryKeywords.any (fun row =>
    row.2.any (fun k => strContains (industryCombinedText description aliases) k))

/-- `PersonaGenerator._infer_target_industries`: collect every industry with a
keyword occurring in the combined text; with no match, fall back to the fixed
default list. -/
def infer_target_industries (description : String) (aliases : List String) : List String :=
  let detected := industryKeywords.filterMap (fun row =>
    if row.2.any (fun k => strContains (industryCombinedText description aliases) k) then
      some row.1
    else none)
  if detected.isEmpty then ["Technology", "Government"] else detected

/-- The keys of the `PERSONA_CONFIGS` table in `persona_library.py`. -/
def personaConfigNames : List String :=
  ["APT29", "APT28", "Lazarus Group", "FIN7", "APT1", "Carbanak", "APT33",
   "Equation", "DarkHydrus", "Sandworm Team"]

/-- The mutable state of a `PersonaLibrary`. Persona objects are modelled by
identity tokens (naturals): `counter` is the next fresh token, so every
construction through `AttackerPersona.from_mitre_data` yields a token no
earlier call produced, which is exactly the object-identity structure the
cache claims are about. `cache` is `None` when the library was created with
`cache_personas=False`. -/
structure PersonaLibraryState where
  cache : Option (List (String × Nat)) := some []
  custom : List (String × Nat) := []
  auto_generate : Bool := true
  counter : Nat := 0
  deriving DecidableEq, Repr

/-- Dict lookup on an association list (insertion order, first binding wins;
the modelled dicts never bind one name twice). -/
def assocLookup (m : List (String × Nat)) (k : String) : Option Nat :=
  (m.find? (fun e => e.1 == k)).map (fun e => e.2)

/-- Constructing a persona for `name` (any of the `from_mitre_data` paths:
pre-configured, auto-generated or basic — all build a fresh object): hand out
the next identity token and, when caching is enabled, store it under `name`. -/
def constructPersona (s : PersonaLibraryState) (name : String) :
    Nat × PersonaLibraryState :=
  (s.counter,
   { s with counter := s.counter + 1
            cache := s.cache.map (fun m => m ++ [(name, s.counter)]) })

/-- The cache-miss path of `PersonaLibrary.get_persona`: custom personas are
returned as stored (and not re-cached); otherwise the group must exist in the
MITRE data (both the pre-configured branch, through `from_mitre_data`, and
the unknown-name branch raise `ValueError` when it does not) and a fresh
persona is constructed and cached. -/
def getPersonaUncached (client : MITREStixClient) (s : PersonaLibraryState)
    (name : String) : Except String (Nat × PersonaLibraryState) :=
  match assocLookup s.custom name with
  | some inst => .ok (inst, s)
  | none =>
    match client.get_group_by_name name with
    | none =>
      if personaConfigNames.contains name then
        .error ("Group not found in MITRE data: " ++ name)
      else
        .error ("Unknown persona: " ++ name)
    | some _ => .ok (constructPersona s name)

/-- `PersonaLibrary.get_persona`: the cache is consulted first and a hit is
returned unchanged; a miss goes through `getPersonaUncached`. -/
def get_persona (client : MITREStixClient) (s : PersonaLibraryState) (name : String) :
    Except String (Nat × PersonaLibraryState) :=
  match s.cache with
  | some m =>
    match assocLookup m name with
    | some inst => .ok (inst, s)
    | none => getPersonaUncached client s name
  | none => getPersonaUncached client s name

/-- `PersonaLibrary.clear_cache`: empty the cache dict when one exists. -/
def clear_cache (s : PersonaLibraryState) : PersonaLibraryState :=
  { s with cache := s.cache.map (fun _ => ([] : List (String × Nat))) }

/-! Helper lemmas about technique selection and chain assembly. -/

theorem mem_matchingTechniques {p : AttackerPersona} {tactic : String}
    {exclude : List String} {t : StixObject} :
    t ∈ p.matchingTechniques tactic exclude ↔
      t ∈ p.techniques ∧ techniqueMatchesTactic t tactic = true ∧
        notExcludedById t exclude = true := by
  simp [AttackerPersona.matchingTechniques, List.mem_filter, Bool.and_eq_true, and_assoc]

theorem mem_of_select {p : AttackerPersona} {tactic : String} {exclude : List String}
    {r : Nat} {t : StixObject}
    (h : p.select_technique_for_tactic tactic exclude r = some t) :
    t ∈ p.matchingTechniques tactic exclude := by
  unfold AttackerPersona.select_technique_for_tactic at h
  dsimp only at h
  split at h
  · exact Option.noConfusion h
  · split at h
    · exact List.get?_mem h
    · exact List.get?_mem h

theorem select_eq_none_of_empty {p : AttackerPersona} {tactic : String}
    {exclude : List String} (r : Nat)
    (hm : p.matchingTechniques tactic exclude = []) :
    p.select_technique_for_tactic tactic exclude r = none := by
  unfold AttackerPersona.select_technique_for_tactic
  dsimp only
  split
  · rfl
  · next h0 => exact absurd (by rw [hm]; rfl) h0

theorem selectG_fst_eq_select {p : AttackerPersona} {tactic : String}
    {exclude : List String} {g : Gen} {t : StixObject}
    (h : (p.selectTechniqueG tactic exclude g).1 = some t) :
    ∃ r, p.select_technique_for_tactic tactic exclude r = some t := by
  unfold AttackerPersona.selectTechniqueG at h
  dsimp only at h
  split at h
  · exact Option.noConfusion h
  · split at h
    · exact ⟨_, h⟩
    · exact ⟨0, h⟩

theorem buildChain_entries (p : AttackerPersona) :
    ∀ (order : List String) (g : Gen) (e : ChainEntry), e ∈ (p.buildChain order g).1 →
      e.tactic ∈ p.tactics ∧
        ∃ t, t ∈ p.techniques ∧ techniqueMatchesTactic t e.tactic = true ∧
          e.technique_id = t.external_id.getD "" ∧ e.technique_name = t.name := by
  intro order
  induction order with
  | nil =>
    intro g e he
    exact absurd he (by simp [AttackerPersona.buildChain])
  | cons tac rest ih =>
    intro g e he
    unfold AttackerPersona.buildChain at he
    dsimp only at he
    split at he
    case isTrue hmem =>
      split at he
      case h_1 t heq =>
        rcases List.mem_cons.mp he with he1 | he2
        · subst he1
          obtain ⟨r, hr⟩ := selectG_fst_eq_select heq
          obtain ⟨ht, hmatch, _⟩ := mem_matchingTechniques.mp (mem_of_select hr)
          exact ⟨hmem, t, ht, hmatch, rfl, rfl⟩
        · exact ih _ e he2
      case h_2 heq => exact ih _ e he
    case isFalse hmem => exact ih _ e he

theorem buildChain_empty_of_no_techniques {p : AttackerPersona}
    (hp : p.techniques = []) :
    ∀ (order : List String) (g : Gen), (p.buildChain order g).1 = [] := by
  intro order
  induction order with
  | nil => intro g; rfl
  | cons tac rest ih =>
    intro g
    unfold AttackerPersona.buildChain
    dsimp only
    have hm : p.matchingTechniques tac [] = [] := by
      simp [AttackerPersona.matchingTechniques, hp]
    have hsel : (p.selectTechniqueG tac [] g).1 = none := by
      unfold AttackerPersona.selectTechniqueG
      dsimp only
      split
      · rfl
      · next h0 => exact absurd (by rw [hm]; rfl) h0
    split
    · split
      · next t heq => rw [hsel] at heq; exact Option.noConfusion heq
      · exact ih _
    · exact ih _

/-- C2: every entry of `get_attack_chain` names a tactic of the persona's
tactics list and a technique of the persona's own technique set classified
under that tactic; a persona with no techniques yields an empty chain; and
the ransomware scenario on a persona without the `impact` tactic yields no
`impact` entry. -/
theorem get_attack_chain_sound (p : AttackerPersona) (scenario : String) (g : Gen) :
    (∀ e ∈ (p.get_attack_chain scenario g).1,
        e.tactic ∈ p.tactics ∧
          ∃ t, t ∈ p.techniques ∧ techniqueMatchesTactic t e.tactic = true ∧
            e.technique_id = t.external_id.getD "" ∧ e.technique_name = t.name)
    ∧ (p.techniques = [] → (p.get_attack_chain scenario g).1 = [])
    ∧ (scenario = "ransomware" → "impact" ∉ p.tactics →
        ∀ e ∈ (p.get_attack_chain scenario g).1, e.tactic ≠ "impact") := by
  refine ⟨fun e he => buildChain_entries p _ g e he, ?_, ?_⟩
  · intro hp
    exact buildChain_empty_of_no_techniques hp _ g
  · intro _ himp e he heq
    have := (buildChain_entries p _ g e he).1
    rw [heq] at this
    exact himp this

/-- C1: `select_technique_for_tactic` only returns techniques of the
persona's set that carry a `mitre-attack` kill-chain phase for the requested
tactic and whose external id is not excluded; when no technique of the set
satisfies both conditions it returns `none` (a normal outcome, not an
error). -/
theorem select_technique_for_tactic_sound (p : AttackerPersona) (tactic : String)
    (exclude : List String) (r : Nat) :
    (∀ t, p.select_technique_for_tactic tactic exclude r = some t →
        t ∈ p.techniques ∧ techniqueMatchesTactic t tactic = true ∧
          ∀ i, t.external_id = some i → exclude.contains i = false)
    ∧ ((∀ t ∈ p.techniques,
          ¬(techniqueMatchesTactic t tactic = true ∧ notExcludedById t exclude = true)) →
        p.select_technique_for_tactic tactic exclude r = none) := by
  constructor
  · intro t ht
    obtain ⟨hmem, hmatch, hexc⟩ := mem_matchingTechniques.mp (mem_of_select ht)
    refine ⟨hmem, hmatch, fun i hi => ?_⟩
    unfold notExcludedById at hexc
    rw [hi] at hexc
    simpa using hexc
  · intro hnone
    refine select_eq_none_of_empty r ?_
    unfold AttackerPersona.matchingTechniques
    rw [List.filter_eq_nil_iff]
    intro t ht
    simp only [Bool.and_eq_true]
    exact fun hc => hnone t ht ⟨hc.1, hc.2⟩

theorem matchingTechniques_congr {p q : AttackerPersona}
    (htech : q.techniques = p.techniques) (tactic : String) (exclude : List String) :
    q.matchingTechniques tactic exclude = p.matchingTechniques tactic exclude := by
  unfold AttackerPersona.matchingTechniques
  rw [htech]

theorem select_congr {p q : AttackerPersona}
    (htech : q.techniques = p.techniques)
    (hsoph : q.sophistication_level = p.sophistication_level)
    (tactic : String) (exclude : List String) (r : Nat) :
    q.select_technique_for_tactic tactic exclude r
      = p.select_technique_for_tactic tactic exclude r := by
  have hm := matchingTechniques_congr htech tactic exclude
  unfold AttackerPersona.select_technique_for_tactic
  dsimp only
  simp only [hm, hsoph]

theorem selectG_congr {p q : AttackerPersona}
    (htech : q.techniques = p.techniques)
    (hsoph : q.sophistication_level = p.sophistication_level)
    (tactic : String) (exclude : List String) (g : Gen) :
    q.selectTechniqueG tactic exclude g = p.selectTechniqueG tactic exclude g := by
  unfold AttackerPersona.selectTechniqueG
  dsimp only
  rw [matchingTechniques_congr htech, hsoph,
    select_congr htech hsoph, select_congr htech hsoph]

theorem buildChain_congr {p q : AttackerPersona}
    (htac : q.tactics = p.tactics)
    (htech : q.techniques = p.techniques)
    (hsoph : q.sophistication_level = p.sophistication_level) :
    ∀ (order : List String) (g : Gen), q.buildChain order g = p.buildChain order g := by
  intro order
  induction order with
  | nil => intro g; rfl
  | cons tac rest ih =>
    intro g
    show AttackerPersona.buildChain q (tac :: rest) g
      = AttackerPersona.buildChain p (tac :: rest) g
    unfold AttackerPersona.buildChain
    dsimp only
    rw [htac, selectG_congr htech hsoph tac [] g]
    simp only [ih]

/-- C10: the per-phase technique cap `max_techniques_per_phase` is stored on
the persona but read by neither `select_technique_for_tactic` nor
`get_attack_chain`: changing it while keeping the same draw stream changes
neither result. -/
theorem max_techniques_per_phase_unused (p : AttackerPersona) (k : Nat)
    (tactic : String) (exclude : List String) (r : Nat) (scenario : String) (g : Gen) :
    ({ p with max_techniques_per_phase := k }).select_technique_for_tactic tactic exclude r
      = p.select_technique_for_tactic tactic exclude r
    ∧ ({ p with max_techniques_per_phase := k }).get_attack_chain scenario g
      = p.get_attack_chain scenario g := by
  constructor
  · exact select_congr rfl rfl tactic exclude r
  · show ({ p with max_techniques_per_phase := k }).buildChain
        (({ p with max_techniques_per_phase := k }).tacticOrderFor scenario) g
      = p.buildChain (p.tacticOrderFor scenario) g
    have horder : ({ p with max_techniques_per_phase := k }).tacticOrderFor scenario
        = p.tacticOrderFor scenario := rfl
    rw [horder]
    exact @buildChain_congr p { p with max_techniques_per_phase := k } rfl rfl rfl
      (p.tacticOrderFor scenario) g

theorem sophisticationModifier_nonneg (s : SophisticationLevel) :
    0 ≤ sophisticationModifier s := by
  cases s <;> norm_num [sophisticationModifier]

/-- C3: for a persona whose base technique success rate lies in `[0, 1]`, the
success probability is the base rate times the sophistication multiplier,
times `0.85` on the difficult tactics, capped at `0.95`; the detection
probability is `0.3` scaled by the stealth-preference, high-visibility and
stealth-mode factors, capped at `0.9`; and both always lie in `[0, 1]`. -/
theorem phase_probability_formulas_and_bounds (p : AttackerPersona) (phase : PlanPhase)
    (h0 : 0 ≤ p.technique_success_rate) (h1 : p.technique_success_rate ≤ 1) :
    calculateSuccessProbability p phase
      = min (p.technique_success_rate * sophisticationModifier p.sophistication_level *
          (if phase.tactic ∈ difficultTactics then 85/100 else 1)) (95/100)
    ∧ 0 ≤ calculateSuccessProbability p phase
    ∧ calculateSuccessProbability p phase ≤ 1
    ∧ calculateDetectionProbability p phase
      = min ((3/10) *
          (match p.stealth_preference with
           | .stealthy => (1/2 : ℚ)
           | .noisy => 3/2
           | .balanced => 1) *
          (if phase.tactic ∈ highVisibilityTactics then 13/10 else 1) *
          (if phase.stealth_mode then 6/10 else 1)) (9/10)
    ∧ 0 ≤ calculateDetectionProbability p phase
    ∧ calculateDetectionProbability p phase ≤ 1 := by
  have hmult : 0 ≤ sophisticationModifier p.sophistication_level :=
    sophisticationModifier_nonneg _
  have hbase : 0 ≤ p.technique_success_rate * sophisticationModifier p.sophistication_level :=
    mul_nonneg h0 hmult
  refine ⟨?_, ?_, ?_, ?_, ?_, ?_⟩
  · unfold calculateSuccessProbability
    dsimp only
    split
    · rfl
    · rw [mul_one]
  · unfold calculateSuccessProbability
    dsimp only
    split
    · exact le_min (by positivity) (by norm_num)
    · exact le_min hbase (by norm_num)
  · unfold calculateSuccessProbability
    dsimp only
    exact le_trans (min_le_right _ _) (by norm_num)
  · unfold calculateDetectionProbability
    dsimp only
    cases p.stealth_preference <;> dsimp only <;> split <;> split <;> norm_num
  · unfold calculateDetectionProbability
    dsimp only
    cases p.stealth_preference <;> dsimp only <;> split <;> split <;> norm_num
  · unfold calculateDetectionProbability
    dsimp only
    cases p.stealth_preference <;> dsimp only <;> split <;> split <;>
      exact le_trans (min_le_right _ _) (by norm_num)

theorem pyInt_nonneg {x : ℚ} (h : 0 ≤ x) : 0 ≤ pyInt x := by
  unfold pyInt
  rw [if_pos h]
  exact Int.le_floor.mpr (by exact_mod_cast h)

theorem pyInt_le {x : ℚ} {z : Int} (h0 : 0 ≤ x) (h : x ≤ (z : ℚ)) : pyInt x ≤ z := by
  unfold pyInt
  rw [if_pos h0]
  exact (Int.floor_le_floor h).trans_eq (Int.floor_intCast z)

/-- C4: the finalized risk score — fixed points per achieved objective,
discounted by `1 - detectionRate * 0.3`, truncated and clamped at 100 — lies
in `[0, 100]` for every mix of objectives and every detection rate in
`[0, 1]`. -/
theorem risk_score_bounds (ia ps dt lm : Bool) (dr : ℚ) (h0 : 0 ≤ dr) (h1 : dr ≤ 1) :
    0 ≤ calcRiskScore ia ps dt lm dr ∧ calcRiskScore ia ps dt lm dr ≤ 100 := by
  unfold calcRiskScore
  dsimp only
  have hp0 : (0 : Int) ≤
      (if ia then 20 else 0) + (if ps then 25 else 0) +
      (if dt then 30 else 0) + (if lm then 25 else 0) := by
    split_ifs <;> norm_num
  have hp100 :
      (if ia then (20 : Int) else 0) + (if ps then 25 else 0) +
      (if dt then 30 else 0) + (if lm then 25 else 0) ≤ 100 := by
    split_ifs <;> norm_num
  have hf0 : (0 : ℚ) ≤ 1 - dr * (3/10) := by
    have := mul_le_mul_of_nonneg_right h1 (by norm_num : (0:ℚ) ≤ 3/10)
    linarith
  have hf1 : 1 - dr * (3/10) ≤ (1 : ℚ) := by
    have := mul_nonneg h0 (by norm_num : (0:ℚ) ≤ 3/10)
    linarith
  set P : Int :=
    (if ia then 20 else 0) + (if ps then 25 else 0) +
    (if dt then 30 else 0) + (if lm then 25 else 0) with hP
  have hc0 : (0 : ℚ) ≤ (P : ℚ) * (1 - dr * (3/10)) :=
    mul_nonneg (by exact_mod_cast hp0) hf0
  have hc100 : (P : ℚ) * (1 - dr * (3/10)) ≤ ((100 : Int) : ℚ) := by
    calc (P : ℚ) * (1 - dr * (3/10)) ≤ (P : ℚ) * 1 :=
          mul_le_mul_of_nonneg_left hf1 (by exact_mod_cast hp0)
      _ = (P : ℚ) := mul_one _
      _ ≤ ((100 : Int) : ℚ) := by exact_mod_cast hp100
  constructor
  · exact le_min (pyInt_nonneg hc0) (by norm_num)
  · exact min_le_right _ _

theorem mem_of_getLast?_eq {α} {l : List α} {x : α} (h : l.getLast? = some x) :
    x ∈ l := by
  obtain ⟨hne, hx⟩ := List.mem_getLast?_eq_getLast (Option.mem_def.mpr h)
  rw [hx]
  exact List.getLast_mem hne

theorem mem_of_resolveRef {c : MITREStixClient} {ref : Option String}
    {target : StixObject} (h : c.resolveRef ref = some target) :
    target ∈ c.objects := by
  unfold MITREStixClient.resolveRef at h
  match ref, h with
  | some r, h =>
    unfold MITREStixClient.objectsById at h
    exact List.mem_of_mem_filter (mem_of_getLast?_eq h)

/-- C5: every technique returned by `get_techniques_for_group` is the
annotated target of a `uses` relationship out of the group whose target id
resolves to an `attack-pattern` object present in the bundle; a `uses` edge
whose target does not resolve contributes nothing (the traversal is total, so
it raises nothing). -/
theorem get_techniques_for_group_sound (c : MITREStixClient) (group_id : String)
    (t : StixObject) (ht : t ∈ c.get_techniques_for_group group_id) :
    ∃ rel ∈ c.relationships,
      rel.source_ref = some group_id ∧ rel.relationship_type = some "uses" ∧
      ∃ target, c.resolveRef rel.target_ref = some target ∧
        target ∈ c.objects ∧ target.type = "attack-pattern" ∧
        t = addMitreExternalId target := by
  unfold MITREStixClient.get_techniques_for_group at ht
  rw [List.mem_filterMap] at ht
  obtain ⟨rel, hrel, heq⟩ := ht
  refine ⟨rel, hrel, ?_⟩
  split at heq
  case isTrue hcond =>
    rw [Bool.and_eq_true, beq_iff_eq, beq_iff_eq] at hcond
    refine ⟨hcond.1, hcond.2, ?_⟩
    split at heq
    case h_1 target hres =>
      split at heq
      case isTrue htyp =>
        injection heq with heq'
        exact ⟨target, hres, mem_of_resolveRef hres, by simpa using htyp, heq'.symm⟩
      case isFalse => exact Option.noConfusion heq
    case h_2 => exact Option.noConfusion heq
  case isFalse => exact Option.noConfusion heq

/-- C6: `execute_attack_campaign` fails exactly when no persona is set; with
a persona set it always returns a completed campaign record (missing
techniques and missing alternatives are absorbed as skipped entries or
absent values by the total phase loop, never as errors). -/
theorem execute_attack_campaign_error_iff (client : MITREStixClient)
    (persona : Option AttackerPersona) (target scenario : String)
    (max_duration_hours : Int) (auto_execute : Bool) (g : Gen) :
    (persona = none →
      execute_attack_campaign client persona target scenario max_duration_hours
          auto_execute g
        = .error "No persona set. Use set_persona() first.")
    ∧ (∀ p, persona = some p →
        ∃ c, execute_attack_campaign client persona target scenario max_duration_hours
            auto_execute g = .ok c
          ∧ c.status = "completed") := by
  constructor
  · intro h
    subst h
    rfl
  · intro p h
    subst h
    exact ⟨_, rfl, rfl⟩

theorem runPhases_no_auto (client : MITREStixClient) (p : AttackerPersona)
    (target : String) :
    ∀ (plan : List PlanPhase) (c : Campaign) (g : Gen),
      runPhases client p target false plan c g
        = ({ c with phases := c.phases ++ plan.map PhaseEntry.planned }, g) := by
  intro plan
  induction plan with
  | nil =>
    intro c g
    show (c, g) = _
    simp
  | cons ph rest ih =>
    intro c g
    rw [show runPhases client p target false (ph :: rest) c g
        = runPhases client p target false rest
            { c with phases := c.phases ++ [PhaseEntry.planned ph] } g from rfl]
    rw [ih]
    simp [List.append_assoc]

theorem filter_map_planned_isSuccess (plan : List PlanPhase) :
    (plan.map PhaseEntry.planned).filter isSuccessEntry = [] := by
  induction plan with
  | nil => rfl
  | cons ph rest ih => simp [isSuccessEntry, ih]

theorem filter_map_planned_isDetected (plan : List PlanPhase) :
    (plan.map PhaseEntry.planned).filter isDetectedEntry = [] := by
  induction plan with
  | nil => rfl
  | cons ph rest ih => simp [isDetectedEntry, ih]

theorem any_map_planned_isSuccessLateral (plan : List PlanPhase) :
    (plan.map PhaseEntry.planned).any isSuccessLateralEntry = false := by
  induction plan with
  | nil => rfl
  | cons ph rest ih => simp [isSuccessLateralEntry, ih]

theorem execute_no_auto_eq (client : MITREStixClient) (p : AttackerPersona)
    (target scenario : String) (max_duration_hours : Int) (g : Gen) :
    execute_attack_campaign client (some p) target scenario max_duration_hours false g
      = .ok (calculateCampaignMetrics
          { id := "campaign", persona := p, target := target, scenario := scenario,
            max_duration_hours := max_duration_hours, status := "completed",
            phases := (generatePersonaAttackPlan p scenario g).1.map PhaseEntry.planned,
            attack_plan := (generatePersonaAttackPlan p scenario g).1 }) := by
  unfold execute_attack_campaign
  dsimp only
  rw [runPhases_no_auto]
  rfl

/-- C8: a campaign run without `auto_execute` produces no outcomes: every
phase entry stays Planned, the detection/technique/objective accumulators and
the exfiltration counter stay empty, yet the campaign completes with metrics
computed over the planned entries (all zero). -/
theorem no_auto_execute_plans_only (client : MITREStixClient) (p : AttackerPersona)
    (target scenario : String) (max_duration_hours : Int) (g : Gen) :
    ∃ c, execute_attack_campaign client (some p) target scenario max_duration_hours
        false g = .ok c
      ∧ (∀ e ∈ c.phases, ∃ ph, e = PhaseEntry.planned ph)
      ∧ c.detection_events = [] ∧ c.techniques_used = []
      ∧ c.objectives_completed = [] ∧ c.data_exfiltrated = 0
      ∧ c.status = "completed"
      ∧ c.success_rate = 0 ∧ c.detection_rate = 0 ∧ c.risk_score = 0 := by
  refine ⟨_, execute_no_auto_eq client p target scenario max_duration_hours g, ?_⟩
  unfold calculateCampaignMetrics
  dsimp only
  rw [filter_map_planned_isSuccess, filter_map_planned_isDetected,
    any_map_planned_isSuccessLateral]
  have hdr : (if 0 < ((generatePersonaAttackPlan p scenario g).1.map
      PhaseEntry.planned).length then
      ((([] : List PhaseEntry).length : ℚ) /
        (((generatePersonaAttackPlan p scenario g).1.map PhaseEntry.planned).length : ℚ))
      else 0) = 0 := by
    split <;> simp
  rw [hdr]
  refine ⟨?_, rfl, rfl, rfl, rfl, rfl, rfl, rfl, ?_⟩
  · intro e he
    simp only [List.mem_map] at he
    obtain ⟨ph, _, hph⟩ := he
    exact ⟨ph, hph.symm⟩
  · show calcRiskScore false false false false 0 = 0
    norm_num [calcRiskScore, pyInt]

/-- C7 counterexample: on input with no matching keyword the inferred
industry list is the fixed two-element default `["Technology",
"Government"]`, not a single generic bucket. -/
theorem infer_target_industries_default_not_single :
    infer_target_industries "" [] = ["Technology", "Government"]
    ∧ (infer_target_industries "" []).length ≠ 1 := by
  constructor
  · rfl
  · decide

/-- C7 (amended): `_infer_target_industries` is total (never raises), and
when no industry keyword matches the combined description/alias text it
returns the fixed two-element default list `["Technology", "Government"]`. -/
theorem infer_target_industries_default (description : String) (aliases : List String)
    (h : anyIndustryMatch description aliases = false) :
    infer_target_industries description aliases = ["Technology", "Government"] := by
  unfold infer_target_industries
  have hnil : industryKeywords.filterMap (fun row =>
      if row.2.any (fun k => strContains (industryCombinedText description aliases) k) then
        some row.1
      else none) = [] := by
    rw [List.filterMap_eq_nil_iff]
    intro row hrow
    unfold anyIndustryMatch at h
    rw [List.any_eq_false] at h
    rw [if_neg]
    intro hc
    exact h row hrow hc
  rw [hnil]
  rfl

/-- C7 witness: a concrete no-match input. -/
theorem infer_target_industries_default_witness :
    anyIndustryMatch "zzz" [] = false
    ∧ infer_target_industries "zzz" [] = ["Technology", "Government"] :=
  ⟨by decide, infer_target_industries_default "zzz" [] (by decide)⟩

theorem assocLookup_append_self {m : List (String × Nat)} {k : String} {v : Nat}
    (h : assocLookup m k = none) : assocLookup (m ++ [(k, v)]) k = some v := by
  induction m with
  | nil => simp [assocLookup]
  | cons e rest ih =>
    cases he : (e.1 == k) with
    | true =>
      exfalso
      unfold assocLookup at h
      simp [List.find?, he] at h
    | false =>
      unfold assocLookup at h ⊢
      simp only [List.cons_append, List.find?, he] at h ⊢
      exact ih h

/-- C9: with caching enabled, a successful `get_persona` leaves the library
in a state where looking the same name up again returns the identical persona
instance and changes nothing — the first call constructs and stores it, every
later call returns the stored instance. -/
theorem get_persona_cached_idempotent (client : MITREStixClient)
    (s : PersonaLibraryState) (name : String) (m : List (String × Nat))
    (inst : Nat) (s' : PersonaLibraryState)
    (hc : s.cache = some m)
    (h : get_persona client s name = .ok (inst, s')) :
    get_persona client s' name = .ok (inst, s') := by
  unfold get_persona at h
  rw [hc] at h
  dsimp only at h
  cases hl : assocLookup m name with
  | some i =>
    rw [hl] at h
    injection h with h'
    have hinst : i = inst := congrArg Prod.fst h'
    have hs : s = s' := congrArg Prod.snd h'
    subst hs
    unfold get_persona
    rw [hc]
    dsimp only
    rw [hl, hinst]
  | none =>
    rw [hl] at h
    unfold getPersonaUncached at h
    cases hcu : assocLookup s.custom name with
    | some i =>
      simp only [hcu] at h
      injection h with h'
      have hinst : i = inst := congrArg Prod.fst h'
      have hs : s = s' := congrArg Prod.snd h'
      subst hs
      unfold get_persona getPersonaUncached
      rw [hc]
      dsimp only
      rw [hl]
      dsimp only
      rw [hcu, hinst]
    | none =>
      simp only [hcu] at h
      cases hg : client.get_group_by_name name with
      | none =>
        simp only [hg] at h
        split at h <;> exact Except.noConfusion h
      | some grp =>
        simp only [hg] at h
        injection h with h'
        unfold constructPersona at h'
        rw [hc] at h'
        simp only [Option.map_some'] at h'
        have hinst : s.counter = inst := congrArg Prod.fst h'
        have hs :
            ({ s with
                counter := s.counter + 1
                cache := some (m ++ [(name, s.counter)]) } : PersonaLibraryState)
              = s' :=
          congrArg Prod.snd h'
        rw [← hs]
        unfold get_persona
        dsimp only
        rw [assocLookup_append_self hl, hinst]

/-- C9 witness: a one-group bundle, an empty caching library; the first call
constructs instance 0 and caches it, the second returns it unchanged. -/
theorem get_persona_cached_witness :
    ({} : PersonaLibraryState).cache = some []
    ∧ get_persona { objects := [{ type := "intrusion-set", id := "is--1", name := "APT29" }] }
        {} "APT29"
      = .ok (0, { cache := some [("APT29", 0)], counter := 1 })
    ∧ get_persona { objects := [{ type := "intrusion-set", id := "is--1", name := "APT29" }] }
        { cache := some [("APT29", 0)], counter := 1 } "APT29"
      = .ok (0, { cache := some [("APT29", 0)], counter := 1 }) :=
  ⟨rfl, by rfl,
   get_persona_cached_idempotent
     { objects := [{ type := "intrusion-set", id := "is--1", name := "APT29" }] }
     {} "APT29" [] 0 { cache := some [("APT29", 0)], counter := 1 } rfl (by rfl)⟩

/-- A concrete persona for witness instantiation (base success rate set to
the whole rational 1 so the hypotheses evaluate by kernel reduction). -/
def witnessPersona : AttackerPersona :=
  { stix_id := "intrusion-set--w", mitre_id := "G0001", name := "WitnessGroup",
    technique_success_rate := 1 }

/-- A concrete difficult-tactic stealth-mode phase for witness instantiation. -/
def witnessPhase : PlanPhase :=
  { tactic := "persistence", technique_id := "T1547", technique_name := "Boot Autostart",
    description := "", stealth_mode := true }

/-- C3 witness: the probability formulas and bounds at a concrete persona and
phase. -/
theorem phase_probability_witness :
    (0 : ℚ) ≤ witnessPersona.technique_success_rate
    ∧ witnessPersona.technique_success_rate ≤ 1
    ∧ 0 ≤ calculateSuccessProbability witnessPersona witnessPhase
    ∧ calculateSuccessProbability witnessPersona witnessPhase ≤ 1
    ∧ 0 ≤ calculateDetectionProbability witnessPersona witnessPhase
    ∧ calculateDetectionProbability witnessPersona witnessPhase ≤ 1 :=
  have h := phase_probability_formulas_and_bounds witnessPersona witnessPhase
    (by decide) (by decide)
  ⟨by decide, by decide, h.2.1, h.2.2.1, h.2.2.2.2.1, h.2.2.2.2.2⟩

/-- C4 witness: risk-score bounds at a concrete objective mix and detection
rate. -/
theorem risk_score_bounds_witness :
    (0 : ℚ) ≤ 1 ∧ (1 : ℚ) ≤ 1
    ∧ 0 ≤ calcRiskScore true false true false 1
    ∧ calcRiskScore true false true false 1 ≤ 100 :=
  have h := risk_score_bounds true false true false 1 (by decide) (by decide)
  ⟨by decide, by decide, h.1, h.2⟩

/-- A concrete technique object for the C5 witness bundle. -/
def witnessTechnique : StixObject :=
  { type := "attack-pattern", id := "attack-pattern--1", name := "Phishing",
    external_references := [{ source_name := "mitre-attack", external_id := some "T1566" }],
    kill_chain_phases := [{ kill_chain_name := "mitre-attack", phase_name := "initial-access" }] }

/-- A concrete bundle for the C5 witness: one group, one resolving `uses`
edge, and one dangling `uses` edge whose target is missing. -/
def witnessClient : MITREStixClient :=
  { objects :=
      [{ type := "intrusion-set", id := "intrusion-set--g", name := "WitnessGroup" },
       witnessTechnique,
       { type := "relationship", id := "relationship--1",
         source_ref := some "intrusion-set--g",
         target_ref := some "attack-pattern--1",
         relationship_type := some "uses" },
       { type := "relationship", id := "relationship--2",
         source_ref := some "intrusion-set--g",
         target_ref := some "attack-pattern--missing",
         relationship_type := some "uses" }] }

/-- C5 witness: the returned technique of the witness bundle is backed by the
resolving `uses` edge, while the dangling edge contributes nothing (the query
returns exactly one technique). -/
theorem get_techniques_for_group_sound_witness :
    addMitreExternalId witnessTechnique
      ∈ witnessClient.get_techniques_for_group "intrusion-set--g"
    ∧ (witnessClient.get_techniques_for_group "intrusion-set--g").length = 1
    ∧ ∃ rel ∈ witnessClient.relationships,
        rel.source_ref = some "intrusion-set--g" ∧ rel.relationship_type = some "uses" ∧
        ∃ target, witnessClient.resolveRef rel.target_ref = some target ∧
          target ∈ witnessClient.objects ∧ target.type = "attack-pattern" ∧
          addMitreExternalId witnessTechnique = addMitreExternalId target :=
  ⟨by decide, by decide,
   get_techniques_for_group_sound witnessClient "intrusion-set--g"
     (addMitreExternalId witnessTechnique) (by decide)⟩

end AgentBounty
